import Mathlib

/-
  Verification development for the DCA-Auth Python SDK
  (packages/sdk-python/src/dca_auth/client.py and exceptions.py).

  The request-execution core is embedded shallowly:
  * JSON scalar values stand for the values appearing in error-response
    bodies; classification in `handle_api_error` dispatches only on the
    HTTP status and the `code` string, so nested JSON values are not
    needed to decide any branch.
  * One dispatch attempt of the underlying HTTP library
    (`self._original_request`) is modelled by an `AttemptOutcome` oracle:
    either a `Response` or one of the exception classes caught by
    `_make_request_with_retry` (ConnectionError, Timeout, or another
    RequestException).  `raise_for_status` is part of the embedding: a
    status in [400, 600) raises an HTTPError, which is itself a
    RequestException.
  * Mutable state (headers dict, storage) is threaded explicitly; the
    observable actions (dispatches with their headers, sleeps, emitted
    events, refresh calls) are collected in an `ExecTrace`.
-/

namespace DCAAuth

/-- JSON scalar value as it appears in an error body.  Branch decisions in
`handle_api_error` depend only on the status and the `code` string, never
on the shape of a detail value, so scalars suffice. -/
inductive JsonVal where
  | str (s : String)
  | num (n : Int)
  | null
  deriving DecidableEq, Repr

/-- Parsed JSON error body: the `message` / `code` / `details` keys read by
`handle_api_error`.  A key absent from the body is `none`. -/
structure ErrorBody where
  message : Option String
  code : Option String
  details : Option (List (String × JsonVal))
  deriving DecidableEq, Repr

/-- An HTTP response as consumed by the client: status code, the
`Retry-After` header (as the raw header string, `none` when absent), the
parsed JSON body (`none` when `response.json()` raises), and the raw text
used as a fallback message. -/
structure Response where
  status : Nat
  retryAfter : Option String
  bodyJson : Option ErrorBody
  text : String
  deriving DecidableEq, Repr

/-- The exception class of a constructed error value.  Each constructor
mirrors one class of exceptions.py that the client or the classifier can
actually construct. -/
inductive ErrKind where
  | base
  | authentication
  | authorization
  | validation
  | notFound
  | conflict
  | rateLimit
  | network
  | server
  | license
  | licenseExpired
  | licenseNotFound
  | maxActivations
  deriving DecidableEq, Repr

/-- The payload every DCAAuthError subclass carries (exceptions.py,
`DCAAuthError.__init__`): message, machine-readable code, details map and
optional HTTP status. -/
structure DCAAuthError where
  kind : ErrKind
  message : String
  code : String
  details : List (String × JsonVal)
  status_code : Option Nat
  deriving DecidableEq, Repr

/-- `details.get(key)` on the details dict. -/
def dget (d : List (String × JsonVal)) (k : String) : Option JsonVal :=
  (d.find? (fun p => p.1 = k)).map (fun p => p.2)

/-- Rendering of a JSON scalar inside a Python f-string. -/
def jstr : JsonVal → String
  | .str s => s
  | .num n => toString n
  | .null => "None"

/-- Python truthiness of a JSON scalar. -/
def pyTruthy : JsonVal → Bool
  | .str s => s ≠ ""
  | .num n => n ≠ 0
  | .null => false

/-- Python truthiness of an optional value (absent behaves like None). -/
def optTruthy : Option JsonVal → Bool
  | none => false
  | some v => pyTruthy v

/-- Models CPython `int(s)` on an ASCII string: optional surrounding
whitespace, an optional sign, then at least one decimal digit; anything
else raises ValueError (here: `none`).  (CPython additionally accepts
underscores between digits and non-ASCII decimal digits; the header
values at issue in the claims are plain ASCII.)  Character-list
implementation so that it evaluates inside the kernel. -/
def pyInt? (s : String) : Option Int :=
  let t := ((s.toList.dropWhile Char.isWhitespace).reverse.dropWhile Char.isWhitespace).reverse
  let signDigits : Int × List Char :=
    match t with
    | '-' :: rest => (-1, rest)
    | '+' :: rest => (1, rest)
    | _ => (1, t)
  if signDigits.2 ≠ [] ∧ signDigits.2.all Char.isDigit then
    some (signDigits.1 *
      (signDigits.2.foldl (fun acc c => acc * 10 + (c.toNat - 48)) (0 : Nat) : Nat))
  else none

/-- `s.startswith(p)` on ASCII strings; character-list implementation so
that it evaluates inside the kernel. -/
def strStartsWith (s p : String) : Bool := p.toList.isPrefixOf s.toList

/-- `DCAAuthError(message, code, details, status_code)` (exceptions.py). -/
def mkDCAAuthError (message code : String) (details : List (String × JsonVal))
    (status_code : Option Nat) : DCAAuthError :=
  ⟨.base, message, code, details, status_code⟩

/-- `AuthenticationError(message, details)`. -/
def AuthenticationError (message : String) (details : List (String × JsonVal)) : DCAAuthError :=
  ⟨.authentication, message, "AUTHENTICATION_ERROR", details, some 401⟩

/-- `AuthorizationError(message, details)`. -/
def AuthorizationError (message : String) (details : List (String × JsonVal)) : DCAAuthError :=
  ⟨.authorization, message, "AUTHORIZATION_ERROR", details, some 403⟩

/-- `ValidationError(message, fields)`: details becomes a singleton map
holding the fields value (None when absent). -/
def ValidationError (message : String) (fields : Option JsonVal) : DCAAuthError :=
  ⟨.validation, message, "VALIDATION_ERROR", [("fields", fields.getD .null)], some 400⟩

/-- `NotFoundError(resource, resource_id)`: the message mentions the id
only when it is truthy; details carry both values. -/
def NotFoundError (resource : JsonVal) (rid : Option JsonVal) : DCAAuthError :=
  ⟨.notFound,
   if optTruthy rid then
     jstr resource ++ " with id " ++ jstr (rid.getD .null) ++ " not found"
   else jstr resource ++ " not found",
   "NOT_FOUND", [("resource", resource), ("id", rid.getD .null)], some 404⟩

/-- `ConflictError(message, details)`. -/
def ConflictError (message : String) (details : List (String × JsonVal)) : DCAAuthError :=
  ⟨.conflict, message, "CONFLICT", details, some 409⟩

/-- `RateLimitError(message, retry_after)`: retry_after lands in the
details map (it can be an int, None, or the raw string in the classifier
when the header is empty). -/
def RateLimitError (message : String) (retry_after : JsonVal) : DCAAuthError :=
  ⟨.rateLimit, message, "RATE_LIMIT_EXCEEDED", [("retry_after", retry_after)], some 429⟩

/-- `NetworkError(message, details)` (no status code). -/
def NetworkError (message : String) (details : List (String × JsonVal)) : DCAAuthError :=
  ⟨.network, message, "NETWORK_ERROR", details, none⟩

/-- `ServerError(message, status_code)` (details None becomes the empty map). -/
def ServerError (message : String) (status_code : Nat) : DCAAuthError :=
  ⟨.server, message, "SERVER_ERROR", [], some status_code⟩

/-- `LicenseError(message, code, details)`. -/
def LicenseError (message code : String) (details : List (String × JsonVal)) : DCAAuthError :=
  ⟨.license, message, code, details, none⟩

/-- `LicenseExpiredError(license_key, expired_at)`. -/
def LicenseExpiredError (license_key : String) (expired_at : Option JsonVal) : DCAAuthError :=
  ⟨.licenseExpired, "License " ++ license_key ++ " has expired",
   "LICENSE_EXPIRED",
   [("license_key", .str license_key), ("expired_at", expired_at.getD .null)], none⟩

/-- `LicenseNotFoundError(license_key)`. -/
def LicenseNotFoundError (license_key : String) : DCAAuthError :=
  ⟨.licenseNotFound, "License " ++ license_key ++ " not found",
   "LICENSE_NOT_FOUND", [("license_key", .str license_key)], none⟩

/-- `MaxActivationsError(license_key, max_activations, current_activations)`:
built through `LicenseActivationError.__init__` (code
LICENSE_ACTIVATION_ERROR, reason max_activations_reached) and then the
counters are added to details. -/
def MaxActivationsError (license_key : String) (max_activations current_activations : Int) :
    DCAAuthError :=
  ⟨.maxActivations,
   "License " ++ license_key ++ " has reached maximum activations (" ++
     toString current_activations ++ "/" ++ toString max_activations ++ ")",
   "LICENSE_ACTIVATION_ERROR",
   [("license_key", .str license_key), ("reason", .str "max_activations_reached"),
    ("max_activations", .num max_activations),
    ("current_activations", .num current_activations)], none⟩

/-- A JSON scalar read as a Python int where the source passes a detail
value into an int parameter (dead branch of the classifier). -/
def jint (v : Option JsonVal) (dflt : Int) : Int :=
  match v with
  | some (.num n) => n
  | _ => dflt

/-- The dispatch chain of `handle_api_error` (exceptions.py lines
294-345), after the body has been parsed into message, code and details:
dispatch first on the HTTP status, and only if no status branch matched,
on a `LICENSE_`-prefixed code; otherwise return the generic base error. -/
def classifyParsed (status : Nat) (retryAfterHdr : Option String) (message code : String)
    (details : List (String × JsonVal)) : DCAAuthError :=
  if status = 400 then
    if code = "VALIDATION_ERROR" then ValidationError message (dget details "fields")
    else mkDCAAuthError message code details (some status)
  else if status = 401 then AuthenticationError message details
  else if status = 403 then AuthorizationError message details
  else if status = 404 then
    NotFoundError ((dget details "resource").getD (.str "Resource")) (dget details "id")
  else if status = 409 then ConflictError message details
  else if status = 429 then
    let retry_after : JsonVal :=
      match retryAfterHdr with
      | none => .null
      | some s =>
        if s = "" then .str s
        else match pyInt? s with
          | some n => .num n
          | none => .null
    RateLimitError message retry_after
  else if 500 ≤ status then ServerError message status
  else if strStartsWith code "LICENSE_" then
    if code = "LICENSE_EXPIRED" then
      LicenseExpiredError (jstr ((dget details "license_key").getD (.str "unknown")))
        (dget details "expired_at")
    else if code = "LICENSE_NOT_FOUND" then
      LicenseNotFoundError (jstr ((dget details "license_key").getD (.str "unknown")))
    else if code = "MAX_ACTIVATIONS_REACHED" then
      MaxActivationsError (jstr ((dget details "license_key").getD (.str "unknown")))
        (jint (dget details "max_activations") 0)
        (jint (dget details "current_activations") 0)
    else LicenseError message code details
  else mkDCAAuthError message code details (some status)

/-- `handle_api_error(response)` (exceptions.py lines 274-345): parse the
body as the structured error payload, falling back to the raw text as
message (and so code UNKNOWN_ERROR, empty details) when parsing fails,
then run the dispatch chain `classifyParsed`. -/
def handle_api_error (r : Response) : DCAAuthError :=
  let error_data : ErrorBody :=
    match r.bodyJson with
    | some b => b
    | none => ⟨some (if r.text = "" then "Unknown error" else r.text), none, none⟩
  classifyParsed r.status r.retryAfter (error_data.message.getD "Unknown error")
    (error_data.code.getD "UNKNOWN_ERROR") (error_data.details.getD [])

/-! ## The request executor (client.py) -/

/-- Client configuration fields read by the retry loop. -/
structure Config where
  retries : Nat
  retry_delay : ℚ
  auto_refresh_token : Bool
  deriving DecidableEq, Repr

/-- Token storage content under the two keys the client uses. -/
structure Store where
  access_token : Option String
  refresh_token : Option String
  deriving DecidableEq, Repr

/-- Outcome of one call to `self._original_request` (the underlying HTTP
library): a response, or one of the exception classes the retry loop
catches.  `reqError` is any `requests.exceptions.RequestException` other
than ConnectionError/Timeout. -/
inductive AttemptOutcome where
  | resp (r : Response)
  | connError (m : String)
  | timeout (m : String)
  | reqError (m : String)
  deriving DecidableEq, Repr

/-- Result of `_make_request_with_retry`: a returned response, a raised
DCAAuthError, or a raw Python exception escaping uncaught (exception name
plus the offending argument or message text).  The sites are `int()`
applied to an unparseable Retry-After header, and `time.sleep` applied to
a negative Retry-After value. -/
inductive ExecResult where
  | ok (r : Response)
  | err (e : DCAAuthError)
  | pyexn (name arg : String)
  deriving DecidableEq, Repr

/-- Observable actions of one executor run, in chronological order:
the headers of each dispatched attempt, the sleep durations, the emitted
events (name and rate-limit payload), and how many times
`_refresh_access_token` was invoked. -/
structure ExecTrace where
  dispatches : List (List (String × String))
  sleeps : List ℚ
  events : List (String × Int)
  refreshCalls : Nat
  deriving DecidableEq, Repr

/-- `headers.get(k)` on a Python dict modelled as an ordered assoc list. -/
def getHdr (hs : List (String × String)) (k : String) : Option String :=
  (hs.find? (fun p => p.1 = k)).map (fun p => p.2)

/-- `k in headers`. -/
def hasHdr (hs : List (String × String)) (k : String) : Bool :=
  (hs.find? (fun p => p.1 = k)).isSome

/-- `headers[k] = v`: replaces in place when present (Python dicts keep
insertion order on overwrite), appends otherwise. -/
def setHdr (hs : List (String × String)) (k v : String) : List (String × String) :=
  if hasHdr hs k then hs.map (fun p => if p.1 = k then (k, v) else p)
  else hs ++ [(k, v)]

/-- `headers.pop(k, None)`. -/
def popHdr (hs : List (String × String)) (k : String) : List (String × String) :=
  hs.filter (fun p => p.1 ≠ k)

/-- The string of the HTTPError that `response.raise_for_status()` raises
for a status in [400, 600).  The reason phrase and URL interpolated by the
HTTP library are not part of this repository and are omitted. -/
def httpErrorMsg (r : Response) : String :=
  toString r.status ++ (if r.status < 500 then " Client Error" else " Server Error")

/-- Code that runs when the `for attempt in range(retries + 1)` loop exits
without returning: raise the last stored exception, or the generic
final DCAAuthError. -/
def exitLoop (lastExc : Option DCAAuthError) : ExecResult :=
  match lastExc with
  | some e => .err e
  | none => .err (mkDCAAuthError "Request failed after all retries" "UNKNOWN_ERROR" [] none)

/-- `_make_request_with_retry` (client.py lines 184-247), one loop
iteration per constructor application.  Arguments after the fixed
parameters: iterations remaining (`retries + 1 - attempt`), the value of
`attempt`, the current headers dict, and `last_exception`.
`script n` is the outcome of the n-th dispatch; `refreshSpec` is the
outcome of `_refresh_access_token` (modelled below separately): `some tok`
means it returns True having stored access token `tok`, `none` means it
returns False.

CPython `time.sleep` raises ValueError on a negative duration, and that
ValueError is caught by none of the except branches.  The 429 sleep
duration comes from the Retry-After header, so the check is modelled.
The backoff duration `retry_delay * 2 ** attempt` is negative exactly
when the configured `retry_delay` is negative (a delay in seconds per the
constructor documentation); backoff sleeps are modelled as succeeding,
i.e. the model assumes a non-negative `retry_delay`. -/
def retryLoop (cfg : Config) (script : Nat → AttemptOutcome) (refreshSpec : Option String) :
    Nat → Nat → List (String × String) → Option DCAAuthError → ExecResult × ExecTrace
  | 0, _, _, lastExc => (exitLoop lastExc, ⟨[], [], [], 0⟩)
  | remaining + 1, attempt, hdrs, lastExc =>
    match script attempt with
    | .resp r =>
      if r.status = 429 then
        match (match r.retryAfter with
               | none => some (60 : Int)
               | some s => pyInt? s) with
        | none =>
          (.pyexn "ValueError" (r.retryAfter.getD ""), ⟨[hdrs], [], [], 0⟩)
        | some ra =>
          if attempt < cfg.retries then
            if ra < 0 then
              (.pyexn "ValueError" "sleep length must be non-negative",
               ⟨[hdrs], [], [("rate_limit", ra)], 0⟩)
            else
              let p := retryLoop cfg script refreshSpec remaining (attempt + 1) hdrs lastExc
              (p.1, ⟨hdrs :: p.2.dispatches, (ra : ℚ) :: p.2.sleeps,
                     ("rate_limit", ra) :: p.2.events, p.2.refreshCalls⟩)
          else
            (.err (RateLimitError "Rate limit exceeded" (.num ra)),
             ⟨[hdrs], [], [("rate_limit", ra)], 0⟩)
      else if r.status = 401 then
        if cfg.auto_refresh_token ∧ attempt = 0 then
          match refreshSpec with
          | some tok =>
            let hdrs2 := setHdr hdrs "Authorization" ("Bearer " ++ tok)
            let p := retryLoop cfg script refreshSpec remaining (attempt + 1) hdrs2 lastExc
            (p.1, ⟨hdrs :: p.2.dispatches, p.2.sleeps, p.2.events, p.2.refreshCalls + 1⟩)
          | none =>
            (.err (AuthenticationError "Authentication failed" []), ⟨[hdrs], [], [], 1⟩)
        else
          (.err (AuthenticationError "Authentication failed" []), ⟨[hdrs], [], [], 0⟩)
      else if 400 ≤ r.status ∧ r.status < 600 then
        let e := mkDCAAuthError ("Request failed: " ++ httpErrorMsg r) "UNKNOWN_ERROR" [] none
        if attempt < cfg.retries then
          let p := retryLoop cfg script refreshSpec remaining (attempt + 1) hdrs (some e)
          (p.1, ⟨hdrs :: p.2.dispatches, cfg.retry_delay * 2 ^ attempt :: p.2.sleeps,
                 p.2.events, p.2.refreshCalls⟩)
        else
          let p := retryLoop cfg script refreshSpec remaining (attempt + 1) hdrs (some e)
          (p.1, ⟨hdrs :: p.2.dispatches, p.2.sleeps, p.2.events, p.2.refreshCalls⟩)
      else
        (.ok r, ⟨[hdrs], [], [], 0⟩)
    | .connError m =>
      let e := NetworkError ("Connection error: " ++ m) []
      if attempt < cfg.retries then
        let p := retryLoop cfg script refreshSpec remaining (attempt + 1) hdrs (some e)
        (p.1, ⟨hdrs :: p.2.dispatches, cfg.retry_delay * 2 ^ attempt :: p.2.sleeps,
               p.2.events, p.2.refreshCalls⟩)
      else
        let p := retryLoop cfg script refreshSpec remaining (attempt + 1) hdrs (some e)
        (p.1, ⟨hdrs :: p.2.dispatches, p.2.sleeps, p.2.events, p.2.refreshCalls⟩)
    | .timeout m =>
      let e := NetworkError ("Request timeout: " ++ m) []
      if attempt < cfg.retries then
        let p := retryLoop cfg script refreshSpec remaining (attempt + 1) hdrs (some e)
        (p.1, ⟨hdrs :: p.2.dispatches, cfg.retry_delay * 2 ^ attempt :: p.2.sleeps,
               p.2.events, p.2.refreshCalls⟩)
      else
        let p := retryLoop cfg script refreshSpec remaining (attempt + 1) hdrs (some e)
        (p.1, ⟨hdrs :: p.2.dispatches, p.2.sleeps, p.2.events, p.2.refreshCalls⟩)
    | .reqError m =>
      let e := mkDCAAuthError ("Request failed: " ++ m) "UNKNOWN_ERROR" [] none
      if attempt < cfg.retries then
        let p := retryLoop cfg script refreshSpec remaining (attempt + 1) hdrs (some e)
        (p.1, ⟨hdrs :: p.2.dispatches, cfg.retry_delay * 2 ^ attempt :: p.2.sleeps,
               p.2.events, p.2.refreshCalls⟩)
      else
        let p := retryLoop cfg script refreshSpec remaining (attempt + 1) hdrs (some e)
        (p.1, ⟨hdrs :: p.2.dispatches, p.2.sleeps, p.2.events, p.2.refreshCalls⟩)

/-- `_make_request_with_retry` entered from the top:
`for attempt in range(self.retries + 1)` starting with no stored
exception. -/
def makeRequestWithRetry (cfg : Config) (script : Nat → AttemptOutcome)
    (refreshSpec : Option String) (hdrs : List (String × String)) : ExecResult × ExecTrace :=
  retryLoop cfg script refreshSpec (cfg.retries + 1) 0 hdrs none

/-- Arguments of `DCAAuthClient.request` relevant to header handling: the
caller-supplied headers kwarg (absent or a dict) and the `_skip_auth`
flag. -/
structure RequestArgs where
  headers : Option (List (String × String))
  skip_auth : Bool
  deriving DecidableEq, Repr

/-- `DCAAuthClient.request` (client.py lines 283-308) followed by the
monkey-patched `request_wrapper` (lines 158-180): `request` pops the
Authorization header when `_skip_auth` is true, then the wrapper adds the
API key header and, when an access token is stored (truthy) and no
Authorization header is present, `Authorization: Bearer <token>`; then the
retry loop dispatches.  (URL joining and the timeout default do not touch
headers and are omitted.) -/
def clientRequest (cfg : Config) (store : Store) (api_key : Option String)
    (args : RequestArgs) (script : Nat → AttemptOutcome) (refreshSpec : Option String) :
    ExecResult × ExecTrace :=
  let kwargsHeaders : Option (List (String × String)) :=
    if args.skip_auth then some (popHdr (args.headers.getD []) "Authorization")
    else args.headers
  let hdrs0 := kwargsHeaders.getD []
  let hdrs1 :=
    match api_key with
    | some k => if k ≠ "" then setHdr hdrs0 "X-API-Key" k else hdrs0
    | none => hdrs0
  let hdrs2 :=
    match store.access_token with
    | some tok =>
      if tok ≠ "" ∧ ¬ hasHdr hdrs1 "Authorization" then
        setHdr hdrs1 "Authorization" ("Bearer " ++ tok)
      else hdrs1
    | none => hdrs1
  makeRequestWithRetry cfg script refreshSpec hdrs2

/-! ## Token refresh (client.py lines 249-275) -/

/-- Outcome of the `self.post("/api/auth/refresh", ...)` call inside
`_refresh_access_token`: the call raised some exception, or returned a
response with the given status whose JSON body is the given string map
(`none` when `response.json()` raises).  The nested executor run behind
this call is folded into this oracle. -/
inductive RefreshHttp where
  | raises
  | returns (status : Nat) (body : Option (List (String × String)))
  deriving DecidableEq, Repr

/-- Result of `_refresh_access_token`: the returned bool, the storage
content afterwards, how many network (refresh) requests were issued, and
the emitted event names. -/
structure RefreshOut where
  result : Bool
  store : Store
  networkCalls : Nat
  events : List String
  deriving DecidableEq, Repr

/-- `body.get(k)` for the refresh response body. -/
def bget (d : List (String × String)) (k : String) : Option String :=
  (d.find? (fun p => p.1 = k)).map (fun p => p.2)

/-- `_refresh_access_token` (client.py lines 249-275).  Reads the refresh
token (an absent or empty token is falsy: return False with no request);
otherwise posts to the refresh endpoint.  On a 200 response it evaluates
`data["accessToken"]` and stores it, then `data["refreshToken"]` and
stores it: a KeyError on the second lookup happens after the first store
already mutated the access token, and is swallowed by the bare
`except Exception` (returning False).  Every other outcome returns False
leaving storage unchanged. -/
def refreshAccessToken (store : Store) (http : RefreshHttp) : RefreshOut :=
  match store.refresh_token with
  | none => ⟨false, store, 0, []⟩
  | some rt =>
    if rt = "" then ⟨false, store, 0, []⟩
    else
      match http with
      | .raises => ⟨false, store, 1, []⟩
      | .returns status body =>
        if status = 200 then
          match body with
          | none => ⟨false, store, 1, []⟩
          | some data =>
            match bget data "accessToken" with
            | none => ⟨false, store, 1, []⟩
            | some at1 =>
              let store1 : Store := ⟨some at1, store.refresh_token⟩
              match bget data "refreshToken" with
              | none => ⟨false, store1, 1, []⟩
              | some rt2 => ⟨true, ⟨some at1, some rt2⟩, 1, ["auth:refresh"]⟩
        else ⟨false, store, 1, []⟩

/-- The typed error `_make_request_with_retry` stores in `last_exception`
for an attempt whose outcome one of its except branches catches: transport
exceptions map to their wrapped errors, and a response with status in
[400, 600) other than 429 and 401 raises an HTTPError that the generic
RequestException branch wraps.  `none` for outcomes handled otherwise. -/
def caughtAs : AttemptOutcome → Option DCAAuthError
  | .connError m => some (NetworkError ("Connection error: " ++ m) [])
  | .timeout m => some (NetworkError ("Request timeout: " ++ m) [])
  | .reqError m => some (mkDCAAuthError ("Request failed: " ++ m) "UNKNOWN_ERROR" [] none)
  | .resp r =>
    if 400 ≤ r.status ∧ r.status < 600 ∧ r.status ≠ 429 ∧ r.status ≠ 401 then
      some (mkDCAAuthError ("Request failed: " ++ httpErrorMsg r) "UNKNOWN_ERROR" [] none)
    else none

/-- The NetworkError message for a transient transport failure
(connection error or timeout); `none` for any other outcome. -/
def transientMsg : AttemptOutcome → Option String
  | .connError m => some ("Connection error: " ++ m)
  | .timeout m => some ("Request timeout: " ++ m)
  | _ => none

/-- A 429 response whose Retry-After handling can raise a raw ValueError:
the header is present but not parseable as an int (`int()` raises), or it
parses to a negative number (`time.sleep` raises when a retry slot
remains). -/
def badRetryAfter : AttemptOutcome → Bool
  | .resp r =>
    r.status == 429 &&
      (match r.retryAfter with
       | some s =>
         match pyInt? s with
         | none => true
         | some v => decide (v < 0)
       | none => false)
  | _ => false

/-- A 200 refresh response whose body holds accessToken but not
refreshToken: the only refresh failure that mutates storage. -/
def refreshBodyDropsToken : RefreshHttp → Bool
  | .returns status (some data) =>
    status == 200 && (bget data "accessToken").isSome && (bget data "refreshToken").isNone
  | _ => false

/-! ## Concrete fixtures -/

/-- A plain 200 response. -/
def ok200 : Response := ⟨200, none, none, ""⟩

/-- A plain 503 response. -/
def resp503 : Response := ⟨503, none, none, ""⟩

/-- A plain 401 response. -/
def resp401 : Response := ⟨401, none, none, ""⟩

/-- The 404 response of the license scenario: body
message "License not found", code LICENSE_NOT_FOUND,
details containing license_key "ABC". -/
def resp404License : Response :=
  ⟨404, none,
   some ⟨some "License not found", some "LICENSE_NOT_FOUND",
         some [("license_key", .str "ABC")]⟩, ""⟩

/-- A response whose body carries code MAX_ACTIVATIONS_REACHED and a
status (422) that no status branch of the classifier matches. -/
def respMaxActs : Response :=
  ⟨422, none,
   some ⟨some "Max activations reached", some "MAX_ACTIVATIONS_REACHED",
         some [("license_key", .str "K")]⟩, ""⟩

/-! ## Theorems -/

/-- A code with the `LICENSE_` prefix is never the MAX_ACTIVATIONS_REACHED
code. -/
theorem startsWith_license_ne_max (c : String) (h : strStartsWith c "LICENSE_" = true) :
    c ≠ "MAX_ACTIVATIONS_REACHED" := by
  intro he
  subst he
  exact absurd h (by decide)

/-- No input to the dispatch chain produces the MaxActivationsError kind:
its branch is guarded by a LICENSE_ check that its own code fails. -/
theorem classifyParsed_kind_ne_max (status : Nat) (retryAfterHdr : Option String)
    (message code : String) (details : List (String × JsonVal)) :
    (classifyParsed status retryAfterHdr message code details).kind ≠ ErrKind.maxActivations := by
  delta classifyParsed
  by_cases h1 : status = 400
  · rw [if_pos h1]
    by_cases h2 : code = "VALIDATION_ERROR"
    · rw [if_pos h2]
      exact fun h => ErrKind.noConfusion h
    · rw [if_neg h2]
      exact fun h => ErrKind.noConfusion h
  · rw [if_neg h1]
    by_cases h2 : status = 401
    · rw [if_pos h2]
      exact fun h => ErrKind.noConfusion h
    · rw [if_neg h2]
      by_cases h3 : status = 403
      · rw [if_pos h3]
        exact fun h => ErrKind.noConfusion h
      · rw [if_neg h3]
        by_cases h4 : status = 404
        · rw [if_pos h4]
          exact fun h => ErrKind.noConfusion h
        · rw [if_neg h4]
          by_cases h5 : status = 409
          · rw [if_pos h5]
            exact fun h => ErrKind.noConfusion h
          · rw [if_neg h5]
            by_cases h6 : status = 429
            · rw [if_pos h6]
              exact fun h => ErrKind.noConfusion h
            · rw [if_neg h6]
              by_cases h7 : 500 ≤ status
              · rw [if_pos h7]
                exact fun h => ErrKind.noConfusion h
              · rw [if_neg h7]
                by_cases h8 : strStartsWith code "LICENSE_" = true
                · rw [if_pos h8]
                  by_cases h9 : code = "LICENSE_EXPIRED"
                  · rw [if_pos h9]
                    exact fun h => ErrKind.noConfusion h
                  · rw [if_neg h9]
                    by_cases h10 : code = "LICENSE_NOT_FOUND"
                    · rw [if_pos h10]
                      exact fun h => ErrKind.noConfusion h
                    · rw [if_neg h10]
                      by_cases h11 : code = "MAX_ACTIVATIONS_REACHED"
                      · exact absurd h11 (startsWith_license_ne_max _ h8)
                      · rw [if_neg h11]
                        exact fun h => ErrKind.noConfusion h
                · rw [if_neg h8]
                  exact fun h => ErrKind.noConfusion h

/-- C10: `handle_api_error` can never return a MaxActivationsError: the
MAX_ACTIVATIONS_REACHED comparison sits inside the branch guarded by
`code.startswith("LICENSE_")`, which that code fails, so the constructor
call is unreachable; a response carrying that code (with a status no
status branch matches) falls through to the generic default error. -/
theorem c10_max_activations_unreachable :
    (∀ r : Response, (handle_api_error r).kind ≠ ErrKind.maxActivations) ∧
    (handle_api_error respMaxActs).kind = ErrKind.base ∧
    (handle_api_error respMaxActs).code = "MAX_ACTIVATIONS_REACHED" := by
  refine ⟨?_, rfl, rfl⟩
  intro r
  simp only [handle_api_error]
  exact classifyParsed_kind_ne_max _ _ _ _ _

/-- C1: with `skip_auth` true and an access token stored, the dispatched
request nevertheless carries an Authorization header: `request` pops the
header, but the auth-injection wrapper runs afterwards and re-adds
`Authorization: Bearer tok` because the header is absent. -/
theorem c1_skip_auth_header_reinjected :
    clientRequest ⟨3, 1, true⟩ ⟨some "tok", none⟩ none ⟨none, true⟩
        (fun _ => .resp ok200) none =
      (.ok ok200, ⟨[[("Authorization", "Bearer tok")]], [], [], 0⟩) := rfl

/-- C2 counterexample: a 404 response (neither 429 nor a handled 401) is
not raised immediately as a classified error: with retries = 1 the
executor dispatches twice (so it does retry), and the raised error is the
generic base error with code UNKNOWN_ERROR, not the NotFound error the
classifier would produce. -/
theorem c2_counterexample :
    makeRequestWithRetry ⟨1, 1, true⟩ (fun _ => .resp resp404License) none [] =
      (.err (mkDCAAuthError "Request failed: 404 Client Error" "UNKNOWN_ERROR" [] none),
       ⟨[[], []], [1], [], 0⟩) ∧
    (handle_api_error resp404License).kind = ErrKind.notFound := by
  refine ⟨?_, rfl⟩
  have h : makeRequestWithRetry ⟨1, 1, true⟩ (fun _ => .resp resp404License) none [] =
      (.err (mkDCAAuthError "Request failed: 404 Client Error" "UNKNOWN_ERROR" [] none),
       ⟨[[], []], [1 * 2 ^ 0], [], 0⟩) := rfl
  rw [h]
  norm_num

/-- C3 counterexample: a 200 refresh response whose body has accessToken
but no refreshToken makes `_refresh_access_token` return False while
having already overwritten the stored access token. -/
theorem c3_counterexample :
    refreshAccessToken ⟨some "old", some "rt"⟩
        (.returns 200 (some [("accessToken", "NEW")])) =
      ⟨false, ⟨some "NEW", some "rt"⟩, 1, []⟩ ∧
    (⟨some "NEW", some "rt"⟩ : Store) ≠ (⟨some "old", some "rt"⟩ : Store) :=
  ⟨rfl, by decide⟩

/-- C4 counterexample: with retries = 0, a first-attempt 401 with refresh
enabled and a successful refresh does not lead to a retried request: the
`continue` consumes the only loop slot, the request is dispatched exactly
once, and the generic final DCAAuthError (not even an
AuthenticationError) is raised. -/
theorem c4_counterexample :
    makeRequestWithRetry ⟨0, 1, true⟩
        (fun n => if n = 0 then .resp resp401 else .resp ok200) (some "newtok") [] =
      (.err (mkDCAAuthError "Request failed after all retries" "UNKNOWN_ERROR" [] none),
       ⟨[[]], [], [], 1⟩) := rfl

/-- C5: on a 429 response the emitted rate-limit payload is the header
value when parseable and 60 when the header is absent, but an unparseable
header makes `int()` raise an uncaught ValueError: no event is emitted at
all and the raw exception escapes (the claim says the event carries 60). -/
theorem c5_retry_after_eval :
    makeRequestWithRetry ⟨0, 1, true⟩ (fun _ => .resp ⟨429, none, none, ""⟩) none [] =
      (.err (RateLimitError "Rate limit exceeded" (.num 60)),
       ⟨[[]], [], [("rate_limit", 60)], 0⟩) ∧
    makeRequestWithRetry ⟨0, 1, true⟩ (fun _ => .resp ⟨429, some "120", none, ""⟩) none [] =
      (.err (RateLimitError "Rate limit exceeded" (.num 120)),
       ⟨[[]], [], [("rate_limit", 120)], 0⟩) ∧
    makeRequestWithRetry ⟨0, 1, true⟩ (fun _ => .resp ⟨429, some "abc", none, ""⟩) none [] =
      (.pyexn "ValueError" "abc", ⟨[[]], [], [], 0⟩) := ⟨rfl, rfl, rfl⟩

/-- C7 counterexample: a 429 response with a non-integer Retry-After
header makes a raw ValueError (not a DCAAuthError) escape the executor. -/
theorem c7_counterexample :
    (makeRequestWithRetry ⟨1, 1, true⟩
        (fun _ => .resp ⟨429, some "soon", none, ""⟩) none []).1 =
      .pyexn "ValueError" "soon" := rfl

/-- C8 counterexample: executing the license scenario (404 with a
LICENSE_NOT_FOUND body) raises the generic base error — the classifier is
never invoked on the request path — and even the classifier applied to
that response loses license_key. -/
theorem c8_counterexample :
    (makeRequestWithRetry ⟨3, 1, true⟩ (fun _ => .resp resp404License) none []).1 =
      .err (mkDCAAuthError "Request failed: 404 Client Error" "UNKNOWN_ERROR" [] none) ∧
    dget (handle_api_error resp404License).details "license_key" = none := ⟨rfl, rfl⟩

/-- C8 amended: the 404 license response is retried like a transport
error and surfaces as the generic base error after retries; and
`handle_api_error` on that response takes the 404 status branch (which
precedes the LICENSE_ code dispatch), producing a NotFoundError whose
details hold only resource "Resource" and id None — no license_key. -/
theorem c8_amended :
    makeRequestWithRetry ⟨3, 1, true⟩ (fun _ => .resp resp404License) none [] =
      (.err (mkDCAAuthError "Request failed: 404 Client Error" "UNKNOWN_ERROR" [] none),
       ⟨[[], [], [], []], [1, 2, 4], [], 0⟩) ∧
    handle_api_error resp404License =
      ⟨.notFound, "Resource not found", "NOT_FOUND",
       [("resource", .str "Resource"), ("id", .null)], some 404⟩ := by
  refine ⟨?_, rfl⟩
  have h : makeRequestWithRetry ⟨3, 1, true⟩ (fun _ => .resp resp404License) none [] =
      (.err (mkDCAAuthError "Request failed: 404 Client Error" "UNKNOWN_ERROR" [] none),
       ⟨[[], [], [], []], [1 * 2 ^ 0, 1 * 2 ^ 1, 1 * 2 ^ 2], [], 0⟩) := rfl
  rw [h]
  norm_num

/-- C9 counterexample: with retries = 3 the loop makes up to four
dispatches, so three consecutive 503s followed by a 200 reach the fourth
response and return it successfully. -/
theorem c9_counterexample :
    (makeRequestWithRetry ⟨3, 1, true⟩
        (fun n => if n < 3 then .resp resp503 else .resp ok200) none []).1 = .ok ok200 ∧
    (makeRequestWithRetry ⟨3, 1, true⟩
        (fun n => if n < 3 then .resp resp503 else .resp ok200) none
        []).2.dispatches.length = 4 := ⟨rfl, rfl⟩

/-- C9 amended: with retries = 3 the executor dispatches up to four
times; three 503s followed by a 200 return the 200 (after backoff sleeps
1, 2, 4); only four consecutive 503s exhaust the retries, and exhaustion
raises the generic base DCAAuthError with code UNKNOWN_ERROR, not a
Server or Network error. -/
theorem c9_amended :
    makeRequestWithRetry ⟨3, 1, true⟩
        (fun n => if n < 3 then .resp resp503 else .resp ok200) none [] =
      (.ok ok200, ⟨[[], [], [], []], [1, 2, 4], [], 0⟩) ∧
    makeRequestWithRetry ⟨3, 1, true⟩ (fun _ => .resp resp503) none [] =
      (.err (mkDCAAuthError "Request failed: 503 Server Error" "UNKNOWN_ERROR" [] none),
       ⟨[[], [], [], []], [1, 2, 4], [], 0⟩) := by
  have h1 : makeRequestWithRetry ⟨3, 1, true⟩
        (fun n => if n < 3 then .resp resp503 else .resp ok200) none [] =
      (.ok ok200, ⟨[[], [], [], []], [1 * 2 ^ 0, 1 * 2 ^ 1, 1 * 2 ^ 2], [], 0⟩) := rfl
  have h2 : makeRequestWithRetry ⟨3, 1, true⟩ (fun _ => .resp resp503) none [] =
      (.err (mkDCAAuthError "Request failed: 503 Server Error" "UNKNOWN_ERROR" [] none),
       ⟨[[], [], [], []], [1 * 2 ^ 0, 1 * 2 ^ 1, 1 * 2 ^ 2], [], 0⟩) := rfl
  rw [h1, h2]
  norm_num

/-- C3 amended: `_refresh_access_token` returns False with no network
request when no refresh token is stored; and on any failure it returns
False leaving stored credentials unchanged, except when the refresh
response is a 200 whose body has accessToken but no refreshToken — there
the access token has already been overwritten before the failure. -/
theorem c3_amended (st : Store) (http : RefreshHttp) :
    (st.refresh_token = none → refreshAccessToken st http = ⟨false, st, 0, []⟩) ∧
    ((refreshAccessToken st http).result = false →
      refreshBodyDropsToken http = false →
      (refreshAccessToken st http).store = st) := by
  constructor
  · intro h
    rcases st with ⟨a, rt⟩
    simp only at h
    subst h
    rfl
  · intro hres hbody
    rcases st with ⟨a, rt⟩
    rcases rt with _ | rt
    · rfl
    · by_cases hrt : rt = ""
      · simp [refreshAccessToken, hrt]
      · rcases http with _ | ⟨status, body⟩
        · simp [refreshAccessToken, hrt]
        · by_cases hs : status = 200
          · rcases body with _ | data
            · simp [refreshAccessToken, hrt, hs]
            · rcases hat : bget data "accessToken" with _ | at1
              · simp [refreshAccessToken, hrt, hs, hat]
              · rcases hrt2 : bget data "refreshToken" with _ | rt2
                · exfalso
                  simp [refreshBodyDropsToken, hs, hat, hrt2] at hbody
                · exfalso
                  simp [refreshAccessToken, hrt, hs, hat, hrt2] at hres
          · simp [refreshAccessToken, hrt, hs]

/-- Witness for C3: both parts applied at concrete inputs. -/
theorem c3_witness :
    refreshAccessToken ⟨some "old", none⟩ .raises = ⟨false, ⟨some "old", none⟩, 0, []⟩ ∧
    (refreshAccessToken ⟨some "old", some "rt"⟩ .raises).store = ⟨some "old", some "rt"⟩ :=
  ⟨(c3_amended ⟨some "old", none⟩ .raises).1 rfl,
   (c3_amended ⟨some "old", some "rt"⟩ .raises).2 rfl rfl⟩

/-- One loop iteration whose outcome is caught by an except branch:
the attempt is dispatched, the error is stored, a backoff sleep of
`retry_delay * 2 ^ attempt` happens only while `attempt < retries`, and
the loop continues. -/
theorem retryLoop_caught_step (cfg : Config) (script : Nat → AttemptOutcome)
    (refreshSpec : Option String) (n attempt : Nat) (hdrs : List (String × String))
    (lastExc : Option DCAAuthError) (e : DCAAuthError)
    (h : caughtAs (script attempt) = some e) :
    retryLoop cfg script refreshSpec (n + 1) attempt hdrs lastExc =
      ((retryLoop cfg script refreshSpec n (attempt + 1) hdrs (some e)).1,
       ⟨hdrs :: (retryLoop cfg script refreshSpec n (attempt + 1) hdrs (some e)).2.dispatches,
        (if attempt < cfg.retries then [cfg.retry_delay * 2 ^ attempt] else []) ++
          (retryLoop cfg script refreshSpec n (attempt + 1) hdrs (some e)).2.sleeps,
        (retryLoop cfg script refreshSpec n (attempt + 1) hdrs (some e)).2.events,
        (retryLoop cfg script refreshSpec n (attempt + 1) hdrs (some e)).2.refreshCalls⟩) := by
  cases ho : script attempt with
  | resp r =>
    rw [ho] at h
    simp only [caughtAs] at h
    split at h
    case isTrue hc =>
      obtain ⟨hge, hlt, hne429, hne401⟩ := hc
      injection h with he
      simp only [retryLoop, ho, if_neg hne429, if_neg hne401,
        if_pos (And.intro hge (And.intro hlt (And.intro hne429 hne401)))]
      rw [if_pos (And.intro hge hlt)]
      subst he
      by_cases hA : attempt < cfg.retries
      · simp [if_pos hA]
      · simp [if_neg hA]
    case isFalse => exact Option.noConfusion h
  | connError m =>
    rw [ho] at h
    simp only [caughtAs, Option.some.injEq] at h
    subst h
    simp only [retryLoop, ho]
    by_cases hA : attempt < cfg.retries
    · simp [if_pos hA]
    · simp [if_neg hA]
  | timeout m =>
    rw [ho] at h
    simp only [caughtAs, Option.some.injEq] at h
    subst h
    simp only [retryLoop, ho]
    by_cases hA : attempt < cfg.retries
    · simp [if_pos hA]
    · simp [if_neg hA]
  | reqError m =>
    rw [ho] at h
    simp only [caughtAs, Option.some.injEq] at h
    subst h
    simp only [retryLoop, ho]
    by_cases hA : attempt < cfg.retries
    · simp [if_pos hA]
    · simp [if_neg hA]

/-- When every dispatch outcome is caught by an except branch, the loop
dispatches once per remaining iteration with unchanged headers, sleeps the
exponential backoff before each retry, emits nothing, never refreshes, and
finally raises the error stored for the last attempt (index `retries`). -/
theorem retryLoop_allCaught (cfg : Config) (script : Nat → AttemptOutcome)
    (refreshSpec : Option String) (E : Nat → DCAAuthError)
    (hall : ∀ i, caughtAs (script i) = some (E i)) :
    ∀ remaining attempt hdrs lastExc, 1 ≤ remaining →
      attempt + remaining = cfg.retries + 1 →
      retryLoop cfg script refreshSpec remaining attempt hdrs lastExc =
        (.err (E cfg.retries),
         ⟨List.replicate remaining hdrs,
          (List.range' attempt (remaining - 1)).map (fun i => cfg.retry_delay * 2 ^ i),
          [], 0⟩) := by
  intro remaining
  induction remaining with
  | zero => intro attempt hdrs lastExc h1 _; omega
  | succ m ih =>
    intro attempt hdrs lastExc h1 hinv
    rw [retryLoop_caught_step cfg script refreshSpec m attempt hdrs lastExc
      (E attempt) (hall attempt)]
    cases m with
    | zero =>
      have ha : attempt = cfg.retries := by omega
      have hnl : ¬ attempt < cfg.retries := by omega
      subst ha
      simp [retryLoop, exitLoop, hnl, List.range']
    | succ k =>
      have hlt : attempt < cfg.retries := by omega
      rw [ih (attempt + 1) hdrs (some (E attempt)) (by omega) (by omega)]
      simp [hlt, List.range', List.replicate]

/-- C2 amended: a response whose status is in [400, 600) but is neither
429 nor 401 is not classified and raised immediately: `raise_for_status`
raises an HTTPError that the generic RequestException branch catches,
wraps as a base DCAAuthError with code UNKNOWN_ERROR, and retries with
exponential backoff; after `retries + 1` dispatches that generic error —
not the classifier's typed error — is raised. -/
theorem c2_amended (cfg : Config) (script : Nat → AttemptOutcome) (refreshSpec : Option String)
    (hdrs : List (String × String)) (r : Response)
    (hs : ∀ i, script i = .resp r)
    (hge : 400 ≤ r.status) (hlt : r.status < 600) (h429 : r.status ≠ 429)
    (h401 : r.status ≠ 401) :
    makeRequestWithRetry cfg script refreshSpec hdrs =
      (.err (mkDCAAuthError ("Request failed: " ++ httpErrorMsg r) "UNKNOWN_ERROR" [] none),
       ⟨List.replicate (cfg.retries + 1) hdrs,
        (List.range cfg.retries).map (fun i => cfg.retry_delay * 2 ^ i), [], 0⟩) := by
  have hall : ∀ i, caughtAs (script i) =
      some (mkDCAAuthError ("Request failed: " ++ httpErrorMsg r) "UNKNOWN_ERROR" [] none) := by
    intro i
    rw [hs i]
    simp [caughtAs, hge, hlt, h429, h401]
  rw [makeRequestWithRetry,
    retryLoop_allCaught cfg script refreshSpec
      (fun _ => mkDCAAuthError ("Request failed: " ++ httpErrorMsg r) "UNKNOWN_ERROR" [] none)
      hall (cfg.retries + 1) 0 hdrs none (by omega) (by omega)]
  simp [List.range_eq_range']

/-- Witness for C2: a constant 418 response with retries = 1 is dispatched
twice and raises the generic wrapped HTTPError. -/
theorem c2_witness :
    makeRequestWithRetry ⟨1, 1, true⟩ (fun _ => .resp ⟨418, none, none, ""⟩) none [] =
      (.err (mkDCAAuthError ("Request failed: " ++ httpErrorMsg ⟨418, none, none, ""⟩)
         "UNKNOWN_ERROR" [] none),
       ⟨List.replicate 2 [], (List.range 1).map (fun i => (1 : ℚ) * 2 ^ i), [], 0⟩) :=
  c2_amended ⟨1, 1, true⟩ (fun _ => .resp ⟨418, none, none, ""⟩) none [] ⟨418, none, none, ""⟩
    (fun _ => rfl) (by decide) (by decide) (by decide) (by decide)

/-- C6: when every dispatch fails with a transient transport error
(connection error or timeout), the executor dispatches exactly
`retries + 1` times (so the number of retries never exceeds the configured
count), the n-th retry sleeps `retry_delay * 2 ^ (n - 1)` before
dispatching (the sleep list is exactly that schedule), and exhaustion
raises a typed NetworkError — never a silent empty result. -/
theorem c6_transient_backoff (cfg : Config) (script : Nat → AttemptOutcome)
    (refreshSpec : Option String) (hdrs : List (String × String))
    (htr : ∀ i, (transientMsg (script i)).isSome) :
    makeRequestWithRetry cfg script refreshSpec hdrs =
      (.err (NetworkError ((transientMsg (script cfg.retries)).getD "") []),
       ⟨List.replicate (cfg.retries + 1) hdrs,
        (List.range cfg.retries).map (fun i => cfg.retry_delay * 2 ^ i), [], 0⟩) := by
  have hall : ∀ i, caughtAs (script i) =
      some (NetworkError ((transientMsg (script i)).getD "") []) := by
    intro i
    cases hsi : script i with
    | resp r => have h := htr i; rw [hsi] at h; simp [transientMsg] at h
    | connError m => simp [caughtAs, transientMsg]
    | timeout m => simp [caughtAs, transientMsg]
    | reqError m => have h := htr i; rw [hsi] at h; simp [transientMsg] at h
  rw [makeRequestWithRetry,
    retryLoop_allCaught cfg script refreshSpec
      (fun i => NetworkError ((transientMsg (script i)).getD "") []) hall
      (cfg.retries + 1) 0 hdrs none (by omega) (by omega)]
  simp [List.range_eq_range']

/-- Witness for C6: two connection errors and a final timeout with
retries = 2: three dispatches, sleeps 1 and 2, and a NetworkError. -/
theorem c6_witness :
    makeRequestWithRetry ⟨2, 1, true⟩ (fun _ => .connError "boom") none [] =
      (.err (NetworkError "Connection error: boom" []),
       ⟨List.replicate 3 [], (List.range 2).map (fun i => (1 : ℚ) * 2 ^ i), [], 0⟩) :=
  c6_transient_backoff ⟨2, 1, true⟩ (fun _ => .connError "boom") none [] (fun _ => rfl)

/-- The negative-Retry-After sleep path is present in the model: a 429
with Retry-After -1 and a retry slot remaining emits the rate-limit event
and then raises a raw ValueError from `time.sleep`. -/
theorem sleep_negative_retry_after_escapes :
    makeRequestWithRetry ⟨3, 1, true⟩ (fun _ => .resp ⟨429, some "-1", none, ""⟩) none [] =
      (.pyexn "ValueError" "sleep length must be non-negative",
       ⟨[[]], [], [("rate_limit", -1)], 0⟩) := rfl

/-- C7 amended: for a non-negative configured retry_delay (a negative one
would make the backoff sleep itself raise), every failure the executor
raises is a typed DCAAuthError — unless some dispatch yields a 429
response whose Retry-After header is present but not parseable as an int
(`int()` raises a raw ValueError), or parses to a negative value
(`time.sleep` raises a raw ValueError when a retry slot remains).
Formally: when no dispatch outcome is such a response, the result is
never a raw exception. -/
theorem c7_amended (cfg : Config) (script : Nat → AttemptOutcome) (refreshSpec : Option String)
    (hdrs : List (String × String)) (hdel : 0 ≤ cfg.retry_delay)
    (hgood : ∀ i, badRetryAfter (script i) = false) :
    ∀ nm arg, (makeRequestWithRetry cfg script refreshSpec hdrs).1 ≠ .pyexn nm arg := by
  suffices h : ∀ remaining attempt hdrs2 lastExc nm arg,
      (retryLoop cfg script refreshSpec remaining attempt hdrs2 lastExc).1 ≠ .pyexn nm arg by
    intro nm arg
    exact h (cfg.retries + 1) 0 hdrs none nm arg
  intro remaining
  induction remaining with
  | zero =>
    intro attempt hdrs2 lastExc nm arg
    cases lastExc <;> simp [retryLoop, exitLoop]
  | succ k ih =>
    intro attempt hdrs2 lastExc nm arg
    cases ho : script attempt with
    | connError m =>
      by_cases hA : attempt < cfg.retries <;> simp [retryLoop, ho, hA] <;> apply ih
    | timeout m =>
      by_cases hA : attempt < cfg.retries <;> simp [retryLoop, ho, hA] <;> apply ih
    | reqError m =>
      by_cases hA : attempt < cfg.retries <;> simp [retryLoop, ho, hA] <;> apply ih
    | resp r =>
      by_cases h429 : r.status = 429
      · rcases hra : r.retryAfter with _ | s
        · by_cases hA : attempt < cfg.retries <;>
            simp [retryLoop, ho, h429, hra, hA] <;> apply ih
        · have hb := hgood attempt
          rw [ho] at hb
          simp [badRetryAfter, h429, hra] at hb
          rcases hpi : pyInt? s with _ | v
          · rw [hpi] at hb
            simp at hb
          · rw [hpi] at hb
            have hv : ¬ v < 0 := of_decide_eq_false hb
            by_cases hA : attempt < cfg.retries <;>
              simp [retryLoop, ho, h429, hra, hpi, hA, hv] <;> apply ih
      · by_cases h401 : r.status = 401
        · by_cases hc : cfg.auto_refresh_token = true ∧ attempt = 0
          · obtain ⟨hauto, ha0⟩ := hc
            subst ha0
            cases refreshSpec with
            | some tok =>
              simp [retryLoop, ho, h429, h401, hauto]
              apply ih
            | none => simp [retryLoop, ho, h429, h401, hauto]
          · simp [retryLoop, ho, h429, h401, hc]
        · by_cases hfr : 400 ≤ r.status ∧ r.status < 600
          · by_cases hA : attempt < cfg.retries <;>
              simp [retryLoop, ho, h429, h401, hfr, hA] <;> apply ih
          · simp [retryLoop, ho, h429, h401, hfr]

/-- Witness for C7: with no bad Retry-After outcome in the script, the
result is not a raw exception. -/
theorem c7_witness :
    ((0 : ℚ) ≤ 1 ∧ ∀ i : Nat, badRetryAfter ((fun _ : Nat => AttemptOutcome.resp ok200) i) = false) ∧
    ∀ nm arg, (makeRequestWithRetry ⟨1, 1, true⟩ (fun _ => .resp ok200) none []).1 ≠
      .pyexn nm arg :=
  ⟨⟨zero_le_one, fun _ => rfl⟩,
   c7_amended ⟨1, 1, true⟩ (fun _ => .resp ok200) none [] zero_le_one (fun _ => rfl)⟩

/-- C4 amended: on a first-attempt 401 with automatic refresh enabled and
a successful refresh, exactly one refresh call is made and the request is
retried with the new access token — but the retry consumes a loop slot
(the `continue` advances the attempt counter), so it happens only when
`retries` is at least 1 (with `retries = 0` the loop exits and the generic
final error is raised, shown in the counterexample); in every other 401
case an AuthenticationError is raised: refresh disabled, refresh failing,
or the 401 arriving on any attempt other than the first (the fourth
conjunct, at the loop level, and the fifth, the end-to-end run in which
the retried request after the single refresh is itself answered 401). -/
theorem c4_amended (cfg : Config) (script : Nat → AttemptOutcome) (refreshSpec : Option String)
    (hdrs : List (String × String)) (r : Response)
    (h0 : script 0 = .resp r) (h401 : r.status = 401) :
    (∀ tok rOK, cfg.auto_refresh_token = true → refreshSpec = some tok → 1 ≤ cfg.retries →
        script 1 = .resp rOK → rOK.status < 400 →
        makeRequestWithRetry cfg script refreshSpec hdrs =
          (.ok rOK, ⟨[hdrs, setHdr hdrs "Authorization" ("Bearer " ++ tok)], [], [], 1⟩)) ∧
    (cfg.auto_refresh_token = false →
        makeRequestWithRetry cfg script refreshSpec hdrs =
          (.err (AuthenticationError "Authentication failed" []), ⟨[hdrs], [], [], 0⟩)) ∧
    (cfg.auto_refresh_token = true → refreshSpec = none →
        makeRequestWithRetry cfg script refreshSpec hdrs =
          (.err (AuthenticationError "Authentication failed" []), ⟨[hdrs], [], [], 1⟩)) ∧
    (∀ remaining attempt hdrs2 lastExc r2, script attempt = .resp r2 → r2.status = 401 →
        1 ≤ attempt →
        retryLoop cfg script refreshSpec (remaining + 1) attempt hdrs2 lastExc =
          (.err (AuthenticationError "Authentication failed" []), ⟨[hdrs2], [], [], 0⟩)) ∧
    (∀ tok r2, cfg.auto_refresh_token = true → refreshSpec = some tok → 1 ≤ cfg.retries →
        script 1 = .resp r2 → r2.status = 401 →
        makeRequestWithRetry cfg script refreshSpec hdrs =
          (.err (AuthenticationError "Authentication failed" []),
           ⟨[hdrs, setHdr hdrs "Authorization" ("Bearer " ++ tok)], [], [], 1⟩)) := by
  refine ⟨?_, ?_, ?_, ?_, ?_⟩
  · intro tok rOK hauto hrs hret h1 hok
    obtain ⟨k, hk⟩ : ∃ k, cfg.retries = k + 1 := ⟨cfg.retries - 1, by omega⟩
    have hne429 : rOK.status ≠ 429 := by omega
    have hne401 : rOK.status ≠ 401 := by omega
    have hnfr : ¬ (400 ≤ rOK.status ∧ rOK.status < 600) := by omega
    rw [makeRequestWithRetry, hk]
    simp [retryLoop, h0, h401, hrs, hauto, h1, hne429, hne401, hnfr]
  · intro hfalse
    rw [makeRequestWithRetry]
    simp [retryLoop, h0, h401, hfalse]
  · intro hauto hrs
    rw [makeRequestWithRetry]
    simp [retryLoop, h0, h401, hauto, hrs]
  · intro remaining attempt hdrs2 lastExc r2 hsc h401b hge1
    have hne : ¬ (cfg.auto_refresh_token = true ∧ attempt = 0) := by
      rintro ⟨-, h0a⟩
      omega
    simp [retryLoop, hsc, h401b, hne]
  · intro tok r2 hauto hrs hret h1 h401b
    obtain ⟨k, hk⟩ : ∃ k, cfg.retries = k + 1 := ⟨cfg.retries - 1, by omega⟩
    rw [makeRequestWithRetry, hk]
    simp [retryLoop, h0, h401, hrs, hauto, h1, h401b]

/-- Witness for C4: with retries = 1, a 401 then a 200, refresh producing
token tok2: one refresh call, and the retried dispatch carries the new
Bearer token. -/
theorem c4_witness :
    makeRequestWithRetry ⟨1, 1, true⟩
        (fun n => if n = 0 then .resp resp401 else .resp ok200) (some "tok2") [] =
      (.ok ok200, ⟨[[], [("Authorization", "Bearer tok2")]], [], [], 1⟩) :=
  (c4_amended ⟨1, 1, true⟩ (fun n => if n = 0 then .resp resp401 else .resp ok200)
      (some "tok2") [] resp401 rfl rfl).1 "tok2" ok200 rfl rfl (by decide) rfl (by decide)

end DCAAuth
